import Mathlib

/-
  Shallow embedding of the qcam capture-session lifecycle
  (src/qcam/main_window.cpp): MainWindow::startCapture,
  MainWindow::stopCapture, MainWindow::requestComplete and
  MainWindow::display, together with the mapped-buffer table
  (std::map<int, std::pair<void *, unsigned int>> mappedBuffers_).

  Machine integers are modelled as Nat/Int; the uint64_t timestamp
  subtraction carries an explicit mod 2^64; pointers are Int values,
  with MAP_FAILED modelled as -1 (the value mmap returns on failure).
  Errno constants follow the source: ENOMEM = 12, EINVAL = 22.
  The double-precision fps arithmetic of requestComplete is modelled
  over the rationals (exact arithmetic on the same formula).
  Device, allocator and viewfinder collaborators are environments:
  their return codes are parameters, and calls into them are recorded
  as effects in the result structures.
-/

namespace QCam

/-- One plane of a FrameBuffer: a file descriptor plus a byte length
(FrameBuffer::Plane with plane.fd.fd() and plane.length). -/
structure Plane where
  fd : Nat
  length : Nat
  deriving Repr, DecidableEq, Inhabited

/-- Per-plane completion metadata (FrameMetadata::Plane, bytesused). -/
structure MetadataPlane where
  bytesused : Nat
  deriving Repr, DecidableEq, Inhabited

/-- Completion metadata of a buffer (FrameMetadata): sequence number,
timestamp in nanoseconds (uint64_t), and per-plane bytes used. -/
structure FrameMetadata where
  sequence : Nat
  timestamp : Nat
  planes : List MetadataPlane
  deriving Repr, DecidableEq, Inhabited

/-- A frame buffer: its planes and its completion metadata. -/
structure FrameBuffer where
  planes : List Plane
  metadata : FrameMetadata
  deriving Repr, DecidableEq, Inhabited

/-- A mapped region: the pointer value returned by mmap (Int; -1 models
MAP_FAILED) and the mapped length. -/
abbrev MappedRegion := Int × Nat

/-- The mapped-buffer table mappedBuffers_, a std::map keyed by the
plane file descriptor, modelled as an association list with unique keys
(insertion order in place of the std::map key order; no claim depends
on the iteration order). -/
abbrev BufferTable := List (Nat × MappedRegion)

/-- The keys of the table. -/
def keys (m : BufferTable) : List Nat := m.map Prod.fst

/-- mappedBuffers_[k] = v on the write side of std::map::operator[]:
replaces the value when the key is present, inserts otherwise. -/
def mapAssign : BufferTable → Nat → MappedRegion → BufferTable
  | [], k, v => [(k, v)]
  | (k', v') :: rest, k, v =>
    if k' = k then (k, v) :: rest else (k', v') :: mapAssign rest k v

/-- mappedBuffers_[k] on the read side of std::map::operator[]: returns
the stored region, and inserts a value-initialised region (null pointer,
zero length) when the key is absent, as std::map::operator[] does. The
possibly grown table is returned alongside the value. -/
def mapIndex : BufferTable → Nat → MappedRegion × BufferTable
  | [], k => ((0, 0), [(k, (0, 0))])
  | (k', v') :: rest, k =>
    if k' = k then (v', (k', v') :: rest)
    else
      let r := mapIndex rest k
      (r.1, (k', v') :: r.2)

/-- Pure lookup (std::map::find), used only to state theorems. -/
def mapFind? : BufferTable → Nat → Option MappedRegion
  | [], _ => none
  | (k', v') :: rest, k => if k' = k then some v' else mapFind? rest k

/-- The MainWindow state the claims are about: the mapped-buffer table,
the capturing flag, and the statistics counters reset by startCapture. -/
structure SessionState where
  mappedBuffers : BufferTable
  isCapturing : Bool
  framesCaptured : Nat
  previousFrames : Nat
  lastBufferTime : Nat
  deriving Repr, DecidableEq, Inhabited

/-- The state of a freshly constructed MainWindow (empty table, not
capturing, zeroed counters). -/
def idleState : SessionState :=
  { mappedBuffers := [], isCapturing := false, framesCaptured := 0,
    previousFrames := 0, lastBufferTime := 0 }

/-- CameraConfiguration::validate outcomes. -/
inductive ValidationStatus
  | Valid
  | Adjusted
  | Invalid
  deriving Repr, DecidableEq, Inhabited

/-- The environment of one startCapture call: the collaborator return
values at each call site, in program order. Per-buffer collaborator
results are indexed by the position of the buffer in the allocated
list; queueRequest results are indexed by the request. The first plane
of buffer i maps to the pointer mmapRet i (-1 models MAP_FAILED: the
source never inspects the mmap return value). -/
structure StartEnv where
  validation : ValidationStatus
  configureRet : Int
  setFormatRet : Int
  allocateRet : Int
  buffers : List FrameBuffer
  createRequestOk : Nat → Bool
  addBufferRet : Nat → Int
  mmapRet : Nat → Int
  startRet : Int
  queueRet : Nat → Int

/-- Outcome of startCapture: the returned errno-style code, the final
state, and the request effects — requests created via
Camera::createRequest (numbered by buffer index), requests deleted on
the error path, and requests queued to the device. -/
structure StartResult where
  ret : Int
  state : SessionState
  created : List Nat
  deleted : List Nat
  queued : List Nat
  deriving Repr, DecidableEq, Inhabited

/-- buffer->planes().front(): the first plane (the source indexes the
planes vector without an emptiness check; an arbitrary plane stands for
the unchecked access on an empty vector, which no claim exercises). -/
def firstPlane (b : FrameBuffer) : Plane := b.planes.headD { fd := 0, length := 0 }

/-- The error label of startCapture: delete every request held in the
requests vector, munmap every table entry, clear the table, return ret.
Requests created but never pushed into the vector are not deleted. -/
def startError (ret : Int) (requests created queued : List Nat)
    (s : SessionState) : StartResult :=
  { ret := ret, state := { s with mappedBuffers := [] },
    created := created, deleted := requests, queued := queued }

/-- The per-buffer loop of startCapture (lines 255-277): for buffer i,
createRequest (goto error with -ENOMEM when it yields null), addBuffer
(goto error on negative return, before the request is pushed into the
requests vector), push the request, then mmap the first plane and store
the result in the table unconditionally. -/
def startLoop (env : StartEnv) (i : Nat) (bufs : List FrameBuffer)
    (requests created : List Nat) (s : SessionState) :
    (List Nat × List Nat × SessionState) ⊕ StartResult :=
  match bufs with
  | [] => Sum.inl (requests, created, s)
  | buffer :: rest =>
    if env.createRequestOk i = false then
      Sum.inr (startError (-12) requests created [] s)
    else
      let created' := created ++ [i]
      if env.addBufferRet i < 0 then
        Sum.inr (startError (env.addBufferRet i) requests created' [] s)
      else
        let requests' := requests ++ [i]
        let plane := firstPlane buffer
        let table' := mapAssign s.mappedBuffers plane.fd (env.mmapRet i, plane.length)
        startLoop env (i + 1) rest requests' created' { s with mappedBuffers := table' }

/-- The queueing loop of startCapture (lines 291-297): queue each
prepared request; on the first negative return, goto error. On success
isCapturing_ is set and 0 returned. -/
def queueLoop (env : StartEnv) (pending queued requests created : List Nat)
    (s : SessionState) : StartResult :=
  match pending with
  | [] =>
    { ret := 0, state := { s with isCapturing := true },
      created := created, deleted := [], queued := queued }
  | r :: rest =>
    if env.queueRet r < 0 then
      startError (env.queueRet r) requests created queued s
    else
      queueLoop env rest (queued ++ [r]) requests created s

/-- MainWindow::startCapture (lines 197-314): validate the generated
configuration, configure the camera, set the viewfinder format,
allocate buffers, run the per-buffer request/mmap loop, reset the
statistics counters, start the camera, queue every request, and mark
the session capturing only after all of that succeeded. Failures before
the loop return directly; failures from the loop on go through the
error label. -/
def startCapture (env : StartEnv) (s : SessionState) : StartResult :=
  if env.validation = ValidationStatus.Invalid then
    { ret := -22, state := s, created := [], deleted := [], queued := [] }
  else if env.configureRet < 0 then
    { ret := env.configureRet, state := s, created := [], deleted := [], queued := [] }
  else if env.setFormatRet < 0 then
    { ret := env.setFormatRet, state := s, created := [], deleted := [], queued := [] }
  else if env.allocateRet < 0 then
    { ret := env.allocateRet, state := s, created := [], deleted := [], queued := [] }
  else
    match startLoop env 0 env.buffers [] [] s with
    | Sum.inr r => r
    | Sum.inl (requests, created, s1) =>
      let s2 := { s1 with previousFrames := 0, framesCaptured := 0, lastBufferTime := 0 }
      if env.startRet ≠ 0 then
        startError env.startRet requests created [] s2
      else
        queueLoop env requests [] requests created s2

/-- Outcome of stopCapture: the final state and the regions passed to
munmap during this call. -/
structure StopResult where
  state : SessionState
  unmapped : List (Nat × MappedRegion)
  deriving Repr, DecidableEq, Inhabited

/-- MainWindow::stopCapture (lines 316-340): a no-op unless capturing;
otherwise stop the camera (stopRet is only logged, never escalated),
munmap every table entry, clear the table, delete the allocator and
configuration, stop the timer, and clear the capturing flag. The
statistics counters are left untouched. -/
def stopCapture (stopRet : Int) (s : SessionState) : StopResult :=
  if s.isCapturing = false then
    { state := s, unmapped := [] }
  else
    let _ := stopRet
    { state := { s with mappedBuffers := [], isCapturing := false },
      unmapped := s.mappedBuffers }

/-- Request::Status (libcamera): the status the completion handler
receives. -/
inductive RequestStatus
  | RequestPending
  | RequestComplete
  | RequestCancelled
  deriving Repr, DecidableEq, Inhabited

/-- The environment of one requestComplete call: whether
Camera::createRequest yields a fresh request for resubmission (the
source ignores the return values of the resubmission addBuffer and
queueRequest calls, so no further collaborator results are needed). -/
structure CompleteEnv where
  createRequestOk : Bool
  deriving Repr, DecidableEq, Inhabited

/-- Outcome of requestComplete: the final state, the instantaneous fps
the handler computed, the return value of the display call (none when
display was never invoked), the (pointer, length) arguments of every
ViewFinder::display call made, whether a fresh request was created, the
(stream, buffer) pairs rebound into it, and whether it was handed to
Camera::queueRequest. -/
structure RCResult where
  state : SessionState
  fps : ℚ
  displayRet : Option Int
  displayCalls : List (Int × Nat)
  created : Bool
  rebound : List (Nat × FrameBuffer)
  queuedCall : Bool
  deriving Repr, DecidableEq, Inhabited

/-- MainWindow::display (lines 382-393): reject any buffer whose plane
count differs from one with -EINVAL and no viewfinder call; otherwise
look the first plane descriptor up through mappedBuffers_ operator[]
and hand the viewfinder the mapped pointer and the first metadata
plane's bytesused. Returns none on an out-of-bounds metadata access
(undefined behaviour in the source). -/
def display (s : SessionState) (buffer : FrameBuffer) :
    Option (Int × List (Int × Nat) × SessionState) :=
  if buffer.planes.length ≠ 1 then
    some (-22, [], s)
  else
    match buffer.planes.get? 0, buffer.metadata.planes.get? 0 with
    | some plane, some mp =>
      let r := mapIndex s.mappedBuffers plane.fd
      some (0, [(r.1.1, mp.bytesused)], { s with mappedBuffers := r.2 })
    | _, _ => none

/-- MainWindow::requestComplete (lines 342-380): drop cancelled
requests; otherwise increment the frame counter, read the first
buffer's metadata (the logging line reads planes[0].bytesused before
any plane-count check), compute the instantaneous fps from the uint64
timestamp difference (0 when the previous timestamp is 0 or the
difference is 0), store the timestamp, call display, then create a
fresh request, rebind every buffer of the completed request and queue
it; when createRequest yields null the handler returns without
resubmitting. Returns none when an unchecked container access in the
source is out of bounds (undefined behaviour). -/
def requestComplete (env : CompleteEnv) (status : RequestStatus)
    (buffers : List (Nat × FrameBuffer)) (s : SessionState) : Option RCResult :=
  if status = RequestStatus.RequestCancelled then
    some { state := s, fps := 0, displayRet := none, displayCalls := [],
           created := false, rebound := [], queuedCall := false }
  else
    match buffers.head? with
    | none => none
    | some (_, buffer) =>
      let s1 := { s with framesCaptured := s.framesCaptured + 1 }
      match buffer.metadata.planes.get? 0 with
      | none => none
      | some _ =>
        let diff : Nat := (buffer.metadata.timestamp + 2 ^ 64 - s1.lastBufferTime) % 2 ^ 64
        let fps : ℚ :=
          if s1.lastBufferTime ≠ 0 ∧ diff ≠ 0 then 1000000000 / (diff : ℚ) else 0
        let s2 := { s1 with lastBufferTime := buffer.metadata.timestamp }
        match display s2 buffer with
        | none => none
        | some (dret, calls, s3) =>
          if env.createRequestOk = false then
            some { state := s3, fps := fps, displayRet := some dret,
                   displayCalls := calls, created := false, rebound := [],
                   queuedCall := false }
          else
            some { state := s3, fps := fps, displayRet := some dret,
                   displayCalls := calls, created := true, rebound := buffers,
                   queuedCall := true }

/-! Helper lemmas about the table operations and the two loops of
startCapture. -/

theorem keys_nil : keys [] = [] := rfl

theorem keys_cons (p : Nat × MappedRegion) (m : BufferTable) :
    keys (p :: m) = p.1 :: keys m := rfl

theorem mapAssign_cons_eq (k : Nat) (v v' : MappedRegion) (tl : BufferTable) :
    mapAssign ((k, v') :: tl) k v = (k, v) :: tl := by
  simp [mapAssign]

theorem mapAssign_cons_ne (k k' : Nat) (v v' : MappedRegion) (tl : BufferTable)
    (h : k' ≠ k) : mapAssign ((k', v') :: tl) k v = (k', v') :: mapAssign tl k v := by
  simp [mapAssign, h]

theorem mem_keys_mapAssign (m : BufferTable) (k : Nat) (v : MappedRegion) (a : Nat) :
    a ∈ keys (mapAssign m k v) ↔ a ∈ keys m ∨ a = k := by
  induction m with
  | nil =>
    rw [show mapAssign [] k v = [(k, v)] from rfl, keys_cons, keys_nil]
    simp
  | cons hd tl ih =>
    cases hd with
    | mk k' v' =>
      by_cases h : k' = k
      · subst h
        rw [mapAssign_cons_eq, keys_cons, keys_cons]
        simp only [List.mem_cons]
        tauto
      · rw [mapAssign_cons_ne k k' v v' tl h, keys_cons, keys_cons]
        simp only [List.mem_cons, ih]
        tauto

theorem nodup_keys_mapAssign (m : BufferTable) (k : Nat) (v : MappedRegion)
    (h : (keys m).Nodup) : (keys (mapAssign m k v)).Nodup := by
  induction m with
  | nil =>
    rw [show mapAssign [] k v = [(k, v)] from rfl]
    simp [keys_cons, keys_nil]
  | cons hd tl ih =>
    cases hd with
    | mk k' v' =>
      rw [keys_cons, List.nodup_cons] at h
      by_cases hk : k' = k
      · subst hk
        rw [mapAssign_cons_eq, keys_cons, List.nodup_cons]
        exact ⟨h.1, h.2⟩
      · rw [mapAssign_cons_ne k k' v v' tl hk, keys_cons, List.nodup_cons]
        refine ⟨fun hc => ?_, ih h.2⟩
        rcases (mem_keys_mapAssign tl k v k').mp hc with hm | he
        · exact h.1 hm
        · exact hk he

theorem mapIndex_mem (m : BufferTable) (k : Nat) (h : k ∈ keys m) :
    (mapIndex m k).2 = m := by
  induction m with
  | nil => simp [keys] at h
  | cons hd tl ih =>
    cases hd with
    | mk k' v' =>
      by_cases hk : k' = k
      · simp [mapIndex, hk]
      · simp only [keys, List.map_cons, List.mem_cons] at h
        rcases h with h | h
        · exact absurd h.symm hk
        · simp [mapIndex, hk, ih h]

theorem startLoop_inr (env : StartEnv) (bufs : List FrameBuffer) :
    ∀ (i : Nat) (requests created : List Nat) (s : SessionState) (r : StartResult),
      startLoop env i bufs requests created s = Sum.inr r →
      r.state.mappedBuffers = [] ∧ r.state.isCapturing = s.isCapturing ∧ r.ret ≠ 0 := by
  induction bufs with
  | nil => intro i requests created s r h; simp [startLoop] at h
  | cons buffer rest ih =>
    intro i requests created s r h
    simp only [startLoop] at h
    by_cases hc : env.createRequestOk i = false
    · rw [if_pos hc] at h
      cases h
      refine ⟨rfl, rfl, ?_⟩
      simp only [startError]
      decide
    · rw [if_neg hc] at h
      by_cases ha : env.addBufferRet i < 0
      · rw [if_pos ha] at h
        cases h
        refine ⟨rfl, rfl, ?_⟩
        simp only [startError]
        omega
      · rw [if_neg ha] at h
        have hrec := ih (i + 1) (requests ++ [i]) (created ++ [i]) _ r h
        exact ⟨hrec.1, hrec.2.1, hrec.2.2⟩

theorem startLoop_inl (env : StartEnv) (bufs : List FrameBuffer) :
    ∀ (i : Nat) (requests created : List Nat) (s : SessionState)
      (requests' created' : List Nat) (s' : SessionState),
      startLoop env i bufs requests created s = Sum.inl (requests', created', s') →
      requests'.length = requests.length + bufs.length ∧
      s'.isCapturing = s.isCapturing ∧
      ((keys s.mappedBuffers).Nodup → (keys s'.mappedBuffers).Nodup) ∧
      (∀ a, a ∈ keys s'.mappedBuffers ↔
        a ∈ keys s.mappedBuffers ∨ a ∈ bufs.map (fun b => (firstPlane b).fd)) := by
  induction bufs with
  | nil =>
    intro i requests created s requests' created' s' h
    simp only [startLoop] at h
    cases h
    simp
  | cons buffer rest ih =>
    intro i requests created s requests' created' s' h
    simp only [startLoop] at h
    by_cases hc : env.createRequestOk i = false
    · rw [if_pos hc] at h; cases h
    · rw [if_neg hc] at h
      by_cases ha : env.addBufferRet i < 0
      · rw [if_pos ha] at h; cases h
      · rw [if_neg ha] at h
        obtain ⟨hlen, hcap, hnd, hmem⟩ :=
          ih (i + 1) (requests ++ [i]) (created ++ [i]) _ requests' created' s' h
        refine ⟨?_, hcap, ?_, ?_⟩
        · rw [hlen]
          simp only [List.length_append, List.length_cons, List.length_nil]
          omega
        · intro hnodup
          exact hnd (nodup_keys_mapAssign _ _ _ hnodup)
        · intro a
          rw [hmem a]
          have hx := mem_keys_mapAssign s.mappedBuffers (firstPlane buffer).fd
            (env.mmapRet i, (firstPlane buffer).length) a
          simp only [List.map_cons, List.mem_cons]
          constructor
          · intro hor
            rcases hor with hor | hor
            · rcases hx.mp hor with hm | he
              · exact Or.inl hm
              · exact Or.inr (Or.inl he)
            · exact Or.inr (Or.inr hor)
          · intro hor
            rcases hor with hor | hor | hor
            · exact Or.inl (hx.mpr (Or.inl hor))
            · exact Or.inl (hx.mpr (Or.inr hor))
            · exact Or.inr hor

theorem queueLoop_ok (env : StartEnv) (pending : List Nat) :
    ∀ (queued requests created : List Nat) (s : SessionState),
      (queueLoop env pending queued requests created s).ret = 0 →
      (queueLoop env pending queued requests created s).queued.length =
          queued.length + pending.length ∧
      (queueLoop env pending queued requests created s).state.mappedBuffers =
          s.mappedBuffers := by
  induction pending with
  | nil => intro queued requests created s _; simp [queueLoop]
  | cons r rest ih =>
    intro queued requests created s h
    simp only [queueLoop] at h ⊢
    by_cases hq : env.queueRet r < 0
    · rw [if_pos hq] at h
      simp only [startError] at h
      omega
    · rw [if_neg hq] at h ⊢
      obtain ⟨h1, h2⟩ := ih (queued ++ [r]) requests created s h
      refine ⟨?_, h2⟩
      rw [h1]
      simp only [List.length_append, List.length_cons, List.length_nil]
      omega

theorem queueLoop_err (env : StartEnv) (pending : List Nat) :
    ∀ (queued requests created : List Nat) (s : SessionState),
      (queueLoop env pending queued requests created s).ret ≠ 0 →
      (queueLoop env pending queued requests created s).state.mappedBuffers = [] ∧
      (queueLoop env pending queued requests created s).state.isCapturing =
        s.isCapturing := by
  induction pending with
  | nil => intro queued requests created s h; simp [queueLoop] at h
  | cons r rest ih =>
    intro queued requests created s h
    simp only [queueLoop] at h ⊢
    by_cases hq : env.queueRet r < 0
    · rw [if_pos hq]
      exact ⟨rfl, rfl⟩
    · rw [if_neg hq] at h ⊢
      exact ih _ _ _ _ h

theorem startCapture_outcomes (env : StartEnv) (s : SessionState) :
    (startCapture env s).ret = 0 ∨
    (((startCapture env s).state.mappedBuffers = [] ∨
      (startCapture env s).state.mappedBuffers = s.mappedBuffers) ∧
     (startCapture env s).state.isCapturing = s.isCapturing) := by
  simp only [startCapture]
  split
  · exact Or.inr ⟨Or.inr rfl, rfl⟩
  · split
    · exact Or.inr ⟨Or.inr rfl, rfl⟩
    · split
      · exact Or.inr ⟨Or.inr rfl, rfl⟩
      · split
        · exact Or.inr ⟨Or.inr rfl, rfl⟩
        · split
          · next r heq =>
            obtain ⟨h1, h2, _⟩ := startLoop_inr env env.buffers 0 [] [] s r heq
            exact Or.inr ⟨Or.inl h1, h2⟩
          · next requests created s1 heq =>
            obtain ⟨_, hcap1, _, _⟩ :=
              startLoop_inl env env.buffers 0 [] [] s requests created s1 heq
            split
            · refine Or.inr ⟨Or.inl rfl, ?_⟩
              simpa [startError] using hcap1
            · by_cases hq : (queueLoop env requests [] requests created ⟨s1.mappedBuffers, s1.isCapturing, 0, 0, 0⟩).ret = 0
              · exact Or.inl hq
              · obtain ⟨e1, e2⟩ := queueLoop_err env requests [] requests created _ hq
                refine Or.inr ⟨Or.inl e1, e2.trans hcap1⟩

/-- Claim C1: every startCapture call that returns an error, entered
from an idle session state (empty mapped-buffer table, not capturing),
leaves the mapped-buffer table empty and the capturing flag false —
at every failure point: invalid configuration, configure rejection,
viewfinder format rejection, allocation failure, createRequest failure,
addBuffer failure, device start failure and queueRequest failure. -/
theorem startCapture_error_unwind (env : StartEnv) (s : SessionState)
    (hmap : s.mappedBuffers = []) (hcap : s.isCapturing = false)
    (herr : (startCapture env s).ret ≠ 0) :
    (startCapture env s).state.mappedBuffers = [] ∧
    (startCapture env s).state.isCapturing = false := by
  rcases startCapture_outcomes env s with h | ⟨ht, hc⟩
  · exact absurd h herr
  · refine ⟨?_, hc.trans hcap⟩
    rcases ht with ht | ht
    · exact ht
    · rw [ht, hmap]

/-- A start environment that fails at the deepest failure point: the
device rejects the queueing of the first prepared request. -/
def queueFailEnv : StartEnv :=
  { validation := ValidationStatus.Valid, configureRet := 0, setFormatRet := 0,
    allocateRet := 1,
    buffers := [{ planes := [{ fd := 3, length := 4096 }],
                  metadata := { sequence := 0, timestamp := 0,
                                planes := [{ bytesused := 0 }] } }],
    createRequestOk := fun _ => true, addBufferRet := fun _ => 0,
    mmapRet := fun _ => 4096, startRet := 0, queueRet := fun _ => -5 }

/-- Witness for C1: a queueRequest failure after the buffer was mapped
still leaves the table empty and the capturing flag false. -/
theorem startCapture_error_unwind_w :
    (startCapture queueFailEnv idleState).state.mappedBuffers = [] ∧
    (startCapture queueFailEnv idleState).state.isCapturing = false :=
  startCapture_error_unwind queueFailEnv idleState rfl rfl (by decide)

/-- The failing input of claim C2: a single allocated buffer for which
Request::addBuffer fails with -EINVAL right after createRequest
succeeded. -/
def leakEnv : StartEnv :=
  { validation := ValidationStatus.Valid, configureRet := 0, setFormatRet := 0,
    allocateRet := 1,
    buffers := [{ planes := [{ fd := 3, length := 4096 }],
                  metadata := { sequence := 0, timestamp := 0,
                                planes := [{ bytesused := 0 }] } }],
    createRequestOk := fun _ => true, addBufferRet := fun _ => -22,
    mmapRet := fun _ => 4096, startRet := 0, queueRet := fun _ => 0 }

/-- Claim C2 (code bug evaluated at the failing input): when addBuffer
fails for a freshly created request, startCapture returns the error,
but the error path deletes only the requests already pushed into the
requests vector — the request whose binding failed (request 0) appears
among the created requests and not among the deleted ones, so a
dangling request survives the failed start. -/
theorem startCapture_addBuffer_failure_leaks_request :
    (startCapture leakEnv idleState).ret = -22 ∧
    (startCapture leakEnv idleState).created = [0] ∧
    (startCapture leakEnv idleState).deleted = [] := by decide

/-- The failing input of claim C3: a single buffer whose mmap call
fails (returns MAP_FAILED, modelled as -1); every collaborator call
succeeds. -/
def mmapFailEnv : StartEnv :=
  { validation := ValidationStatus.Valid, configureRet := 0, setFormatRet := 0,
    allocateRet := 1,
    buffers := [{ planes := [{ fd := 3, length := 4096 }],
                  metadata := { sequence := 0, timestamp := 0,
                                planes := [{ bytesused := 0 }] } }],
    createRequestOk := fun _ => true, addBufferRet := fun _ => 0,
    mmapRet := fun _ => -1, startRet := 0, queueRet := fun _ => 0 }

/-- Claim C3 (code bug evaluated at the failing input): the source
never inspects the mmap return value, so when the mapping call fails
startCapture does not detect it, records the failed mapping (pointer
MAP_FAILED = -1) in the mapped-buffer table, and returns success with
the session capturing — instead of reporting a MapError and unwinding. -/
theorem startCapture_mmap_failure_recorded :
    (startCapture mmapFailEnv idleState).ret = 0 ∧
    (startCapture mmapFailEnv idleState).state.mappedBuffers = [(3, (-1, 4096))] ∧
    (startCapture mmapFailEnv idleState).state.isCapturing = true := by decide

theorem startCapture_ok_aux (env : StartEnv) (s : SessionState) :
    (startCapture env s).ret = 0 →
    (startCapture env s).queued.length = env.buffers.length ∧
    ((keys s.mappedBuffers).Nodup →
      (keys (startCapture env s).state.mappedBuffers).Nodup) ∧
    (∀ a, a ∈ keys (startCapture env s).state.mappedBuffers ↔
      a ∈ keys s.mappedBuffers ∨
        a ∈ env.buffers.map (fun b => (firstPlane b).fd)) := by
  simp only [startCapture]
  split
  · intro hok; simp at hok
  · split
    · intro hok
      simp only at hok
      omega
    · split
      · intro hok
        simp only at hok
        omega
      · split
        · intro hok
          simp only at hok
          omega
        · split
          · next r heq =>
            intro hok
            exact absurd hok (startLoop_inr env env.buffers 0 [] [] s r heq).2.2
          · next requests created s1 heq =>
            obtain ⟨hlen, _, hnd, hmem⟩ :=
              startLoop_inl env env.buffers 0 [] [] s requests created s1 heq
            split
            · next hne =>
              intro hok
              simp only [startError] at hok
              exact absurd hok hne
            · intro hok
              obtain ⟨q1, q2⟩ := queueLoop_ok env requests [] requests created _ hok
              refine ⟨?_, ?_, ?_⟩
              · rw [q1]
                simpa using hlen
              · intro hnodup
                rw [q2]
                exact hnd hnodup
              · intro a
                rw [q2]
                exact hmem a

/-- Claim C4: for every successful startCapture from a state with an
empty mapped-buffer table, the number of requests queued to the device
equals the number of allocated frame buffers, and the table holds
exactly one entry per distinct first-plane file descriptor of the
allocated buffers (its keys are exactly those descriptors, without
duplicates). -/
theorem startCapture_success_counts (env : StartEnv) (s : SessionState)
    (hmap : s.mappedBuffers = [])
    (hok : (startCapture env s).ret = 0) :
    (startCapture env s).queued.length = env.buffers.length ∧
    (keys (startCapture env s).state.mappedBuffers).Nodup ∧
    (∀ a, a ∈ keys (startCapture env s).state.mappedBuffers ↔
      a ∈ env.buffers.map (fun b => (firstPlane b).fd)) := by
  obtain ⟨h1, h2, h3⟩ := startCapture_ok_aux env s hok
  refine ⟨h1, h2 (by rw [hmap]; exact List.nodup_nil), fun a => ?_⟩
  rw [h3 a, hmap]
  simp [keys_nil]

/-- A fully successful start environment with two buffers on distinct
descriptors. -/
def okEnv : StartEnv :=
  { validation := ValidationStatus.Valid, configureRet := 0, setFormatRet := 0,
    allocateRet := 2,
    buffers := [{ planes := [{ fd := 3, length := 4096 }],
                  metadata := { sequence := 0, timestamp := 0,
                                planes := [{ bytesused := 0 }] } },
                { planes := [{ fd := 5, length := 4096 }],
                  metadata := { sequence := 0, timestamp := 0,
                                planes := [{ bytesused := 0 }] } }],
    createRequestOk := fun _ => true, addBufferRet := fun _ => 0,
    mmapRet := fun i => 1000 + i, startRet := 0, queueRet := fun _ => 0 }

/-- Witness for C4 at a successful two-buffer start. -/
theorem startCapture_success_counts_w :
    (startCapture okEnv idleState).queued.length = okEnv.buffers.length ∧
    (keys (startCapture okEnv idleState).state.mappedBuffers).Nodup ∧
    (5 ∈ keys (startCapture okEnv idleState).state.mappedBuffers ↔
      5 ∈ okEnv.buffers.map (fun b => (firstPlane b).fd)) := by
  obtain ⟨h1, h2, h3⟩ := startCapture_success_counts okEnv idleState rfl (by decide)
  exact ⟨h1, h2, h3 5⟩

/-- Claim C5: stopCapture is idempotent — when the session is not
capturing it performs no action at all (and in particular unmaps
nothing), and a second consecutive stopCapture leaves the state of the
first untouched and unmaps no region a second time. -/
theorem stopCapture_idempotent (r1 r2 : Int) (s : SessionState) :
    (stopCapture r2 (stopCapture r1 s).state).state = (stopCapture r1 s).state ∧
    (stopCapture r2 (stopCapture r1 s).state).unmapped = [] ∧
    (s.isCapturing = false → stopCapture r1 s = { state := s, unmapped := [] }) := by
  cases h : s.isCapturing <;> simp [stopCapture, h]

/-- Witness for C5 at a concrete state. -/
theorem stopCapture_idempotent_w :
    (stopCapture 0 (stopCapture 0 idleState).state).state = (stopCapture 0 idleState).state ∧
    (stopCapture 0 (stopCapture 0 idleState).state).unmapped = [] ∧
    stopCapture 0 idleState = { state := idleState, unmapped := [] } := by
  have h := stopCapture_idempotent 0 0 idleState
  exact ⟨h.1, h.2.1, h.2.2 rfl⟩

/-- Claim C6: a completion delivered with cancelled status is dropped
with no further action: the state (frame counter included) is
unchanged, no display call is made, and no request is created, rebound
or queued. -/
theorem requestComplete_cancelled_noop (env : CompleteEnv)
    (buffers : List (Nat × FrameBuffer)) (s : SessionState) :
    requestComplete env RequestStatus.RequestCancelled buffers s =
      some { state := s, fps := 0, displayRet := none, displayCalls := [],
             created := false, rebound := [], queuedCall := false } := rfl

theorem mapIndex_find (m : BufferTable) (k : Nat) (v : MappedRegion)
    (h : mapFind? m k = some v) : mapIndex m k = (v, m) := by
  induction m with
  | nil => simp [mapFind?] at h
  | cons hd tl ih =>
    cases hd with
    | mk k' v' =>
      by_cases hk : k' = k
      · simp only [mapFind?, if_pos hk] at h
        cases h
        simp [mapIndex, hk]
      · simp only [mapFind?, if_neg hk] at h
        simp [mapIndex, hk, ih h]

theorem display_notOne (s : SessionState) (buffer : FrameBuffer)
    (hpl : buffer.planes.length ≠ 1) : display s buffer = some (-22, [], s) := by
  unfold display
  rw [if_pos hpl]

theorem display_one (s : SessionState) (buffer : FrameBuffer) (plane : Plane)
    (hp : buffer.planes = [plane]) (mp : MetadataPlane)
    (hm : buffer.metadata.planes.get? 0 = some mp) :
    display s buffer =
      some (0, [((mapIndex s.mappedBuffers plane.fd).1.1, mp.bytesused)],
        { s with mappedBuffers := (mapIndex s.mappedBuffers plane.fd).2 }) := by
  unfold display
  rw [hp, hm]
  simp

theorem display_isSome (s : SessionState) (buffer : FrameBuffer) (mp : MetadataPlane)
    (hm : buffer.metadata.planes.get? 0 = some mp) : (display s buffer).isSome := by
  by_cases hpl : buffer.planes.length ≠ 1
  · rw [display_notOne s buffer hpl]
    rfl
  · push_neg at hpl
    obtain ⟨p, hp⟩ := List.length_eq_one.mp hpl
    rw [display_one s buffer p hp mp hm]
    rfl

theorem requestComplete_complete_eq (env : CompleteEnv) (status : RequestStatus)
    (hst : status ≠ RequestStatus.RequestCancelled) (stream : Nat)
    (buffer : FrameBuffer) (rest : List (Nat × FrameBuffer)) (s : SessionState)
    (mp : MetadataPlane) (hm : buffer.metadata.planes.get? 0 = some mp)
    (dret : Int) (calls : List (Int × Nat)) (s3 : SessionState)
    (hd : display { s with framesCaptured := s.framesCaptured + 1, lastBufferTime := buffer.metadata.timestamp } buffer = some (dret, calls, s3)) :
    requestComplete env status ((stream, buffer) :: rest) s =
      some { state := s3,
             fps := if s.lastBufferTime ≠ 0 ∧ (buffer.metadata.timestamp + 2 ^ 64 - s.lastBufferTime) % 2 ^ 64 ≠ 0 then 1000000000 / (((buffer.metadata.timestamp + 2 ^ 64 - s.lastBufferTime) % 2 ^ 64 : Nat) : ℚ) else 0,
             displayRet := some dret, displayCalls := calls,
             created := env.createRequestOk,
             rebound := if env.createRequestOk then (stream, buffer) :: rest else [],
             queuedCall := env.createRequestOk } := by
  simp only [requestComplete, if_neg hst, List.head?_cons, hm]
  rw [hd]
  by_cases hcr : env.createRequestOk
  · simp [hcr]
  · simp [hcr]

/-- Claim C7: for a non-cancelled completion with a fresh request
available, (a) a buffer with more than one plane is reported with
-EINVAL (the InvalidBuffer report) and no viewfinder display call is
made, yet a fresh request rebinding the completed request's buffers is
still created and queued; (b) for a single-plane buffer whose first
metadata plane has bytesused n and whose descriptor is mapped to the
region v, the single display call receives exactly (v.1, n): the
mapped region's start and n bytes. -/
theorem requestComplete_display_scenarios :
    (∀ (stream : Nat) (buffer : FrameBuffer) (rest : List (Nat × FrameBuffer))
       (s : SessionState) (mp : MetadataPlane),
       1 < buffer.planes.length →
       buffer.metadata.planes.get? 0 = some mp →
       ∀ r, requestComplete { createRequestOk := true }
           RequestStatus.RequestComplete ((stream, buffer) :: rest) s = some r →
         r.displayRet = some (-22) ∧ r.displayCalls = [] ∧ r.created = true ∧
         r.rebound = (stream, buffer) :: rest ∧ r.queuedCall = true) ∧
    (∀ (stream : Nat) (buffer : FrameBuffer) (rest : List (Nat × FrameBuffer))
       (s : SessionState) (plane : Plane) (mp : MetadataPlane) (v : MappedRegion),
       buffer.planes = [plane] →
       buffer.metadata.planes.get? 0 = some mp →
       mapFind? s.mappedBuffers plane.fd = some v →
       ∀ r, requestComplete { createRequestOk := true }
           RequestStatus.RequestComplete ((stream, buffer) :: rest) s = some r →
         r.displayRet = some 0 ∧ r.displayCalls = [(v.1, mp.bytesused)]) := by
  constructor
  · intro stream buffer rest s mp hpl hm r hr
    rw [requestComplete_complete_eq { createRequestOk := true }
      RequestStatus.RequestComplete (by decide) stream buffer rest s mp hm
      (-22) [] _ (display_notOne _ buffer (by omega))] at hr
    cases hr
    refine ⟨rfl, rfl, rfl, by simp, rfl⟩
  · intro stream buffer rest s plane mp v hp hm hf r hr
    have hf' : mapFind? ({ s with framesCaptured := s.framesCaptured + 1, lastBufferTime := buffer.metadata.timestamp } : SessionState).mappedBuffers plane.fd = some v := hf
    have hd := display_one { s with framesCaptured := s.framesCaptured + 1, lastBufferTime := buffer.metadata.timestamp } buffer plane hp mp hm
    rw [mapIndex_find _ _ _ hf'] at hd
    rw [requestComplete_complete_eq { createRequestOk := true }
      RequestStatus.RequestComplete (by decide) stream buffer rest s mp hm
      0 [(v.1, mp.bytesused)] _ hd] at hr
    cases hr
    exact ⟨rfl, rfl⟩

/-- A capturing state whose table maps descriptor 3 to the region
(1000, 4096). -/
def capState : SessionState :=
  { mappedBuffers := [(3, (1000, 4096))], isCapturing := true,
    framesCaptured := 0, previousFrames := 0, lastBufferTime := 0 }

/-- A completed two-plane buffer. -/
def twoPlaneBuf : FrameBuffer :=
  { planes := [{ fd := 3, length := 4096 }, { fd := 4, length := 4096 }],
    metadata := { sequence := 0, timestamp := 7,
                  planes := [{ bytesused := 3 }, { bytesused := 3 }] } }

/-- A completed single-plane buffer with 3 bytes used. -/
def singlePlaneBuf : FrameBuffer :=
  { planes := [{ fd := 3, length := 4096 }],
    metadata := { sequence := 1, timestamp := 9,
                  planes := [{ bytesused := 3 }] } }

/-- Witness for C7: the two-plane completion yields -EINVAL and no
display call; the single-plane completion's display call carries the
mapped pointer 1000 and the 3 bytes used. -/
theorem requestComplete_display_scenarios_w :
    ((requestComplete { createRequestOk := true } RequestStatus.RequestComplete
        [(0, twoPlaneBuf)] capState).getD default).displayRet = some (-22) ∧
    ((requestComplete { createRequestOk := true } RequestStatus.RequestComplete
        [(0, singlePlaneBuf)] capState).getD default).displayCalls = [(1000, 3)] := by
  obtain ⟨ha, hb⟩ := requestComplete_display_scenarios
  exact ⟨(ha 0 twoPlaneBuf [] capState { bytesused := 3 } (by decide) (by decide)
            _ (by decide)).1,
         (hb 0 singlePlaneBuf [] capState { fd := 3, length := 4096 }
            { bytesused := 3 } (1000, 4096) (by decide) (by decide) (by decide)
            _ (by decide)).2⟩

/-- A completed single-plane buffer on descriptor 3 with timestamp t. -/
def tsBuf (t : Nat) : FrameBuffer :=
  { planes := [{ fd := 3, length := 4096 }],
    metadata := { sequence := 0, timestamp := t,
                  planes := [{ bytesused := 3 }] } }

/-- Counterexample to claim C8 as stated: two consecutive non-cancelled
completions carrying timestamps T1 = 0 < T2 = 1. The claim demands an
instantaneous rate of 1e9/(T2-T1) = 1e9 for the second completion, but
the handler computes 0: a genuine prior timestamp of 0 is
indistinguishable from the no-prior-frame sentinel lastBufferTime_ = 0. -/
theorem requestComplete_fps_zero_prior_cex :
    ((requestComplete { createRequestOk := true } RequestStatus.RequestComplete
        [(0, tsBuf 1)]
        ((requestComplete { createRequestOk := true } RequestStatus.RequestComplete
            [(0, tsBuf 0)] capState).getD default).state).getD default).fps = 0 ∧
    (0 : ℚ) ≠ 1000000000 / ((1 : ℚ) - 0) ∧
    (requestComplete { createRequestOk := true } RequestStatus.RequestComplete
        [(0, tsBuf 0)] capState).isSome ∧
    ((requestComplete { createRequestOk := true } RequestStatus.RequestComplete
        [(0, tsBuf 0)] capState).getD default).state.lastBufferTime = 0 := by
  refine ⟨by decide, by norm_num, by decide, by decide⟩

/-- Claim C8 (amended): for a non-cancelled completion whose previous
timestamp is T1 = lastBufferTime and whose buffer timestamp is T2, with
T1 < T2 < 2^64: when T1 is nonzero the computed instantaneous rate is
exactly 1e9/(T2-T1) (the exact value of the formula the source
evaluates in double precision); when T1 = 0 — no prior frame, or a
prior frame whose timestamp was exactly 0 — the computed rate is 0. -/
theorem requestComplete_fps (env : CompleteEnv) (stream : Nat)
    (buffer : FrameBuffer) (rest : List (Nat × FrameBuffer)) (s : SessionState)
    (mp : MetadataPlane) (hm : buffer.metadata.planes.get? 0 = some mp)
    (hT : s.lastBufferTime < buffer.metadata.timestamp)
    (hT2 : buffer.metadata.timestamp < 2 ^ 64) :
    (0 < s.lastBufferTime →
      ((requestComplete env RequestStatus.RequestComplete
          ((stream, buffer) :: rest) s).getD default).fps =
        1000000000 / ((buffer.metadata.timestamp : ℚ) - (s.lastBufferTime : ℚ))) ∧
    (s.lastBufferTime = 0 →
      ((requestComplete env RequestStatus.RequestComplete
          ((stream, buffer) :: rest) s).getD default).fps = 0) := by
  obtain ⟨⟨dret, calls, s3⟩, hd⟩ := Option.isSome_iff_exists.mp
    (display_isSome { s with framesCaptured := s.framesCaptured + 1, lastBufferTime := buffer.metadata.timestamp } buffer mp hm)
  rw [requestComplete_complete_eq env RequestStatus.RequestComplete (by decide)
    stream buffer rest s mp hm dret calls s3 hd]
  simp only [Option.getD_some]
  have h64 : (2 : Nat) ^ 64 = 18446744073709551616 := by norm_num
  have hdq : (buffer.metadata.timestamp + 2 ^ 64 - s.lastBufferTime) % 2 ^ 64 =
      buffer.metadata.timestamp - s.lastBufferTime := by
    rw [h64] at hT2 ⊢
    omega
  constructor
  · intro h1
    rw [if_pos ⟨by omega, by rw [hdq]; omega⟩, hdq,
      Nat.cast_sub (le_of_lt hT)]
  · intro h0
    rw [if_neg]
    simp [h0]

/-- A capturing state with previous timestamp 5. -/
def fpsState : SessionState :=
  { mappedBuffers := [(3, (1000, 4096))], isCapturing := true,
    framesCaptured := 1, previousFrames := 0, lastBufferTime := 5 }

/-- Witness for C8 (amended): completing at timestamp 15 after a
previous timestamp 5 yields rate 1e9/10. -/
theorem requestComplete_fps_w :
    ((requestComplete { createRequestOk := true } RequestStatus.RequestComplete
        [(0, tsBuf 15)] fpsState).getD default).fps = 1000000000 / ((15 : ℚ) - 5) := by
  have h := (requestComplete_fps { createRequestOk := true } 0 (tsBuf 15) []
    fpsState { bytesused := 3 } (by decide) (by decide) (by decide)).1 (by decide)
  rw [h]
  norm_num [tsBuf, fpsState]

/-- Claim C9: the completion handler only reads the mapped-buffer
table. For any delivered status, provided the completed buffer's
first-plane descriptor is a key of the table whenever the single-plane
display path is taken (the invariant a successful start establishes for
every allocated buffer), the table after requestComplete equals the
table before — the handler performs no map or unmap. -/
theorem requestComplete_table_unchanged (env : CompleteEnv)
    (status : RequestStatus) (buffers : List (Nat × FrameBuffer))
    (s : SessionState)
    (hk : ∀ p, buffers.head? = some p → p.2.planes.length = 1 →
      (firstPlane p.2).fd ∈ keys s.mappedBuffers)
    (hsm : (requestComplete env status buffers s).isSome) :
    ((requestComplete env status buffers s).getD default).state.mappedBuffers =
      s.mappedBuffers := by
  by_cases hst : status = RequestStatus.RequestCancelled
  · simp [requestComplete, hst]
  · cases buffers with
    | nil => simp [requestComplete, if_neg hst] at hsm
    | cons p rest =>
      obtain ⟨stream, buffer⟩ := p
      cases hg : buffer.metadata.planes.get? 0 with
      | none =>
        have hg' : buffer.metadata.planes[0]? = none := by
          rw [← List.get?_eq_getElem?]
          exact hg
        simp [requestComplete, if_neg hst, hg'] at hsm
      | some mp =>
        by_cases hpl : buffer.planes.length = 1
        · obtain ⟨plane, hp⟩ := List.length_eq_one.mp hpl
          have hkk : (firstPlane buffer).fd ∈ keys s.mappedBuffers :=
            hk (stream, buffer) rfl hpl
          have hfp : firstPlane buffer = plane := by simp [firstPlane, hp]
          rw [hfp] at hkk
          have hd := display_one { s with framesCaptured := s.framesCaptured + 1, lastBufferTime := buffer.metadata.timestamp } buffer plane hp mp hg
          rw [requestComplete_complete_eq env status hst stream buffer rest s
            mp hg _ _ _ hd]
          exact mapIndex_mem _ _ hkk
        · have hd := display_notOne { s with framesCaptured := s.framesCaptured + 1, lastBufferTime := buffer.metadata.timestamp } buffer hpl
          rw [requestComplete_complete_eq env status hst stream buffer rest s
            mp hg _ _ _ hd]
          rfl

/-- Witness for C9: a single-plane completion on a mapped descriptor
leaves the one-entry table untouched. -/
theorem requestComplete_table_unchanged_w :
    ((requestComplete { createRequestOk := true } RequestStatus.RequestComplete
        [(0, singlePlaneBuf)] capState).getD default).state.mappedBuffers =
      capState.mappedBuffers := by
  apply requestComplete_table_unchanged
  · intro p hp hpl
    have hpe : p = (0, singlePlaneBuf) := by simpa using hp.symm
    subst hpe
    decide
  · decide

/-- Claim C10: under the precondition that the completed request holds
at least one buffer and every buffer of it has at least one plane (both
its plane vector and its metadata plane array are nonempty), every
container access the handler performs — the unguarded
metadata.planes[0].bytesused read of the logging line and the
first-plane accesses of the display path — is in bounds, and the
handler's out-of-bounds outcome is unreachable. -/
theorem requestComplete_in_bounds (env : CompleteEnv) (status : RequestStatus)
    (buffers : List (Nat × FrameBuffer)) (s : SessionState)
    (hne : buffers ≠ [])
    (hpl : ∀ p ∈ buffers, p.2.planes ≠ [] ∧ p.2.metadata.planes ≠ []) :
    (requestComplete env status buffers s).isSome := by
  by_cases hst : status = RequestStatus.RequestCancelled
  · simp [requestComplete, hst]
  · cases buffers with
    | nil => exact absurd rfl hne
    | cons p rest =>
      obtain ⟨stream, buffer⟩ := p
      obtain ⟨-, hmp⟩ := hpl (stream, buffer) (List.mem_cons_self _ _)
      obtain ⟨mp, hm⟩ : ∃ mp, buffer.metadata.planes.get? 0 = some mp := by
        cases hq : buffer.metadata.planes with
        | nil => exact absurd hq hmp
        | cons a l => exact ⟨a, rfl⟩
      obtain ⟨⟨dret, calls, s3⟩, hd⟩ := Option.isSome_iff_exists.mp
        (display_isSome { s with framesCaptured := s.framesCaptured + 1, lastBufferTime := buffer.metadata.timestamp } buffer mp hm)
      rw [requestComplete_complete_eq env status hst stream buffer rest s
        mp hm dret calls s3 hd]
      rfl

/-- Witness for C10: the single-plane completion is fully in bounds. -/
theorem requestComplete_in_bounds_w :
    (requestComplete { createRequestOk := true } RequestStatus.RequestComplete
      [(0, singlePlaneBuf)] capState).isSome :=
  requestComplete_in_bounds { createRequestOk := true }
    RequestStatus.RequestComplete [(0, singlePlaneBuf)] capState
    (by decide) (by decide)

end QCam
